import Mathlib

/-!
Verification of `brightness_control.py` (hand-gesture brightness control).

The script has three parts:
* `calculate_brightness` — maps the Euclidean distance between the thumb tip
  and the index-finger tip to a brightness percentage via
  `np.interp(distance, [15, 220], [0, 100])` followed by Python `int()`
  truncation toward zero;
* `get_hand_landmarks` — flattens the detected hands into a list of
  `(id, cx, cy)` triples with `cx = int(lm.x * w)`, `cy = int(lm.y * h)`,
  the id enumeration restarting at 0 for each hand;
* `main` — the capture/process/display loop, modelled here as a step
  function on abstract per-frame inputs producing a trace of observable
  events (console lines, brightness-setting calls, frame display, resource
  release).

Real-number (float) arithmetic of the source is modelled over `ℝ`;
normalized landmark coordinates are modelled over `ℚ` so that the landmark
extractor stays computable.
-/

namespace BrightnessControl

/-- Python `int()` applied to a real number: truncation toward zero. -/
noncomputable def pyInt (r : ℝ) : ℤ :=
  if 0 ≤ r then ⌊r⌋ else ⌈r⌉

/-- Python `int()` applied to a rational number: truncation toward zero. -/
def pyIntQ (q : ℚ) : ℤ :=
  if 0 ≤ q then ⌊q⌋ else ⌈q⌉

/-- Model of `math.hypot(a, b)`: the Euclidean norm `sqrt (a^2 + b^2)`. -/
noncomputable def hypot (a b : ℝ) : ℝ :=
  Real.sqrt (a ^ 2 + b ^ 2)

/-- Model of `np.interp(x, [15, 220], [0, 100])`: values at or below the left
domain edge map to the left range value, values at or above the right
domain edge map to the right range value, and in between the value is
linearly interpolated. -/
noncomputable def np_interp (x : ℝ) : ℝ :=
  if x ≤ 15 then 0
  else if 220 ≤ x then 100
  else 0 + (x - 15) * (100 - 0) / (220 - 15)

/-- Function `calculate_brightness(thumb, index_finger)` from
`src/brightness_control.py` (lines 60–84): computes the Euclidean distance
between the two fingertip coordinates, interpolates it from `[15, 220]` to
`[0, 100]`, and returns the truncated integer brightness together with the
raw distance. -/
noncomputable def calculate_brightness (thumb index_finger : ℝ × ℝ) : ℤ × ℝ :=
  let distance := hypot (index_finger.1 - thumb.1) (index_finger.2 - thumb.2)
  let brightness := np_interp distance
  (pyInt brightness, distance)

lemma np_interp_nonneg (x : ℝ) : 0 ≤ np_interp x := by
  unfold np_interp
  split_ifs <;> linarith

lemma np_interp_le_100 (x : ℝ) : np_interp x ≤ 100 := by
  unfold np_interp
  split_ifs <;> linarith

lemma np_interp_mono {a b : ℝ} (hab : a ≤ b) : np_interp a ≤ np_interp b := by
  unfold np_interp
  split_ifs <;> linarith

lemma pyInt_of_nonneg {r : ℝ} (h : 0 ≤ r) : pyInt r = ⌊r⌋ := by
  simp [pyInt, h]

lemma calculate_brightness_fst (thumb index_finger : ℝ × ℝ) :
    (calculate_brightness thumb index_finger).1 =
      ⌊np_interp (hypot (index_finger.1 - thumb.1) (index_finger.2 - thumb.2))⌋ := by
  simp [calculate_brightness, pyInt_of_nonneg (np_interp_nonneg _)]

lemma calculate_brightness_snd (thumb index_finger : ℝ × ℝ) :
    (calculate_brightness thumb index_finger).2 =
      hypot (index_finger.1 - thumb.1) (index_finger.2 - thumb.2) := rfl

lemma hypot_zero_left {a : ℝ} (h : 0 ≤ a) : hypot 0 a = a := by
  rw [hypot]
  rw [show (0 : ℝ) ^ 2 + a ^ 2 = a ^ 2 by ring]
  exact Real.sqrt_sq h

lemma np_interp_left {x : ℝ} (h : x ≤ 15) : np_interp x = 0 := by
  unfold np_interp
  rw [if_pos h]

lemma np_interp_right {x : ℝ} (h : 220 ≤ x) : np_interp x = 100 := by
  unfold np_interp
  rw [if_neg (by linarith), if_pos h]

lemma np_interp_mid {x : ℝ} (h1 : ¬ x ≤ 15) (h2 : ¬ 220 ≤ x) :
    np_interp x = 0 + (x - 15) * (100 - 0) / (220 - 15) := by
  unfold np_interp
  rw [if_neg h1, if_neg h2]

lemma brightness_of_dist (thumb index_finger : ℝ × ℝ) (d : ℝ)
    (hd : (calculate_brightness thumb index_finger).2 = d) :
    (calculate_brightness thumb index_finger).1 = ⌊np_interp d⌋ := by
  rw [calculate_brightness_fst, ← calculate_brightness_snd, hd]

lemma dist_vertical (x y1 y2 : ℝ) (h : y1 ≤ y2) :
    (calculate_brightness (x, y1) (x, y2)).2 = y2 - y1 := by
  rw [calculate_brightness_snd]
  show hypot (x - x) (y2 - y1) = y2 - y1
  rw [show x - x = (0 : ℝ) by ring]
  exact hypot_zero_left (by linarith)

/-- C1: for any pair of fingertip coordinates, if the Euclidean distance
computed by `calculate_brightness` is at most 15 the returned brightness
is 0, and if it is at least 220 the returned brightness is 100: the
interpolation is clamped at the domain edges and truncated to an
integer. -/
theorem edge_clamping (thumb index_finger : ℝ × ℝ) :
    ((calculate_brightness thumb index_finger).2 ≤ 15 →
      (calculate_brightness thumb index_finger).1 = 0)
    ∧ (220 ≤ (calculate_brightness thumb index_finger).2 →
      (calculate_brightness thumb index_finger).1 = 100) := by
  constructor
  · intro h
    rw [brightness_of_dist thumb index_finger _ rfl, np_interp_left h]
    simp
  · intro h
    rw [brightness_of_dist thumb index_finger _ rfl, np_interp_right h]
    norm_num

theorem edge_clamping_witness :
    (calculate_brightness (100, 100) (100, 115)).1 = 0
    ∧ (calculate_brightness (100, 100) (100, 320)).1 = 100 := by
  constructor
  · exact (edge_clamping (100, 100) (100, 115)).1
      (by rw [dist_vertical 100 100 115 (by norm_num)]; norm_num)
  · exact (edge_clamping (100, 100) (100, 320)).2
      (by rw [dist_vertical 100 100 320 (by norm_num)]; norm_num)

/-- C3: the brightness returned by `calculate_brightness` is monotonically
non-decreasing in the fingertip distance: for coordinate pairs whose
distances d1, d2 satisfy 15 ≤ d1 ≤ d2 ≤ 220, the first brightness is at
most the second. -/
theorem brightness_monotone (t1 i1 t2 i2 : ℝ × ℝ)
    (h1 : 15 ≤ (calculate_brightness t1 i1).2)
    (h12 : (calculate_brightness t1 i1).2 ≤ (calculate_brightness t2 i2).2)
    (h2 : (calculate_brightness t2 i2).2 ≤ 220) :
    (calculate_brightness t1 i1).1 ≤ (calculate_brightness t2 i2).1 := by
  rw [brightness_of_dist t1 i1 _ rfl, brightness_of_dist t2 i2 _ rfl]
  exact Int.floor_le_floor (np_interp_mono h12)

theorem brightness_monotone_witness :
    (calculate_brightness (0, 0) (0, 15)).1 ≤ (calculate_brightness (0, 0) (0, 20)).1 := by
  apply brightness_monotone
  · rw [dist_vertical 0 0 15 (by norm_num)]
    norm_num
  · rw [dist_vertical 0 0 15 (by norm_num), dist_vertical 0 0 20 (by norm_num)]
    norm_num
  · rw [dist_vertical 0 0 20 (by norm_num)]
    norm_num

/-- C4: for every pair of input coordinates, the brightness returned by
`calculate_brightness` is an integer in the range [0, 100]. -/
theorem brightness_in_range (thumb index_finger : ℝ × ℝ) :
    0 ≤ (calculate_brightness thumb index_finger).1
    ∧ (calculate_brightness thumb index_finger).1 ≤ 100 := by
  rw [brightness_of_dist thumb index_finger _ rfl]
  constructor
  · exact Int.floor_nonneg.mpr (np_interp_nonneg _)
  · exact le_trans (Int.floor_le_floor (np_interp_le_100 _)) (by norm_num)

/-- C5: for an input pair whose Euclidean distance is 117.5 (the midpoint
of [15, 220]), `calculate_brightness` returns brightness 50 (the midpoint
of [0, 100]), reflecting linearity of the interpolation. -/
theorem midpoint_linearity :
    (calculate_brightness (0, 0) (0, 117.5)).2 = 117.5
    ∧ (calculate_brightness (0, 0) (0, 117.5)).1 = 50 := by
  have hd : (calculate_brightness (0, 0) (0, 117.5)).2 = 117.5 := by
    rw [dist_vertical 0 0 117.5 (by norm_num)]
    norm_num
  refine ⟨hd, ?_⟩
  rw [brightness_of_dist _ _ 117.5 hd,
    np_interp_mid (by norm_num) (by norm_num),
    show (0 : ℝ) + (117.5 - 15) * (100 - 0) / (220 - 15) = 50 by norm_num]
  norm_num

/-- C6: `calculate_brightness` is total and for identical input points the
computed distance is 0 and the returned brightness is 0. -/
theorem identical_points (p : ℝ × ℝ) :
    (calculate_brightness p p).2 = 0 ∧ (calculate_brightness p p).1 = 0 := by
  have hd : (calculate_brightness p p).2 = 0 := by
    rw [calculate_brightness_snd]
    rw [show p.1 - p.1 = (0 : ℝ) by ring, show p.2 - p.2 = (0 : ℝ) by ring]
    exact hypot_zero_left le_rfl
  refine ⟨hd, ?_⟩
  rw [brightness_of_dist p p 0 hd, np_interp_left (by norm_num)]
  simp

/-- C7: with thumb tip (100, 100) and index-finger tip (100, 115) the
computed distance is 15 and the brightness is 0; with thumb tip (100, 100)
and index-finger tip (100, 320) the distance is 220 and the brightness
is 100. -/
theorem boundary_scenarios :
    ((calculate_brightness (100, 100) (100, 115)).2 = 15
      ∧ (calculate_brightness (100, 100) (100, 115)).1 = 0)
    ∧ ((calculate_brightness (100, 100) (100, 320)).2 = 220
      ∧ (calculate_brightness (100, 100) (100, 320)).1 = 100) := by
  have h15 : (calculate_brightness (100, 100) (100, 115)).2 = 15 := by
    rw [dist_vertical 100 100 115 (by norm_num)]
    norm_num
  have h220 : (calculate_brightness (100, 100) (100, 320)).2 = 220 := by
    rw [dist_vertical 100 100 320 (by norm_num)]
    norm_num
  refine ⟨⟨h15, ?_⟩, ⟨h220, ?_⟩⟩
  · rw [brightness_of_dist _ _ 15 h15, np_interp_left (by norm_num)]
    simp
  · rw [brightness_of_dist _ _ 220 h220, np_interp_right (by norm_num)]
    norm_num

/-- A detected hand as Mediapipe reports it: the list of its normalized
landmark coordinates (`lm.x`, `lm.y`) in the model's fixed 21-point
anatomical order. -/
abbrev Hand := List (ℚ × ℚ)

/-- One entry appended by `get_hand_landmarks`: `(id, int(lm.x * w), int(lm.y * h))`. -/
def landmarkEntry (h w : ℕ) (id : ℕ) (lm : ℚ × ℚ) : ℕ × ℤ × ℤ :=
  (id, pyIntQ (lm.1 * w), pyIntQ (lm.2 * h))

/-- Function `get_hand_landmarks(image, hands)` from `src/brightness_control.py`
(lines 27–57): for each detected hand, in detection order, it appends the
enumerated landmarks converted to pixel coordinates; the enumeration (the
id) restarts at 0 for every hand. `h` and `w` are the image dimensions.
When no hand is detected the result is the empty list. -/
def get_hand_landmarks (h w : ℕ) : List Hand → List (ℕ × ℤ × ℤ)
  | [] => []
  | hand :: rest =>
    hand.enum.map (fun p => landmarkEntry h w p.1 p.2) ++ get_hand_landmarks h w rest

/-- One per-frame input to the main loop: whether `cap.read()` succeeded,
the landmark list returned by `get_hand_landmarks`, whether the
`sbc.set_brightness` call would raise an exception on this frame, and
whether the quit key was pressed during this iteration's key poll. -/
structure FrameInput where
  success : Bool
  landmarks : List (ℕ × ℤ × ℤ)
  sbcFails : Bool
  quitKey : Bool

/-- Observable events of the main loop: the console line on acquisition
failure, the per-frame diagnostic console line (brightness and distance),
the brightness-setting call, the frame display, and the two resource
releases performed after the loop. -/
inductive Event where
  | consoleFailMsg : Event
  | consoleDiag : ℤ → ℝ → Event
  | setBrightness : ℤ → Event
  | showFrame : Event
  | releaseCamera : Event
  | destroyWindows : Event

/-- Outcome of one loop iteration: continue to the next frame, leave the
loop via `break`, or abort the whole process with an uncaught exception. -/
inductive StepResult where
  | cont : List Event → StepResult
  | exit : List Event → StepResult
  | crash : List Event → StepResult

/-- The events emitted during one iteration, whatever its outcome. -/
def StepResult.events : StepResult → List Event
  | StepResult.cont evs => evs
  | StepResult.exit evs => evs
  | StepResult.crash evs => evs

/-- The brightness/distance pair computed on a frame (lines 109–114):
`thumb_tip = landmarks[4][1:3]`, `index_tip = landmarks[8][1:3]`,
`brightness, distance = calculate_brightness(thumb_tip, index_tip)`. -/
noncomputable def frameBrightness (inp : FrameInput) : ℤ × ℝ :=
  calculate_brightness
    (((inp.landmarks.getD 4 (0, 0, 0)).2.1 : ℝ), ((inp.landmarks.getD 4 (0, 0, 0)).2.2 : ℝ))
    (((inp.landmarks.getD 8 (0, 0, 0)).2.1 : ℝ), ((inp.landmarks.getD 8 (0, 0, 0)).2.2 : ℝ))

/-- One iteration of the `while` loop in `main` (lines 96–130): on read
failure print the failure message and `break`; otherwise, when the
landmark list is non-empty with at least 9 entries, take entries 4 and 8
as thumb tip and index-finger tip, compute the brightness, print the
diagnostic line, call `sbc.set_brightness` (which may raise), draw the
overlay, show the frame and poll the quit key; with fewer than 9 landmarks
only show the frame and poll the quit key. -/
noncomputable def loopStep (inp : FrameInput) : StepResult :=
  if inp.success = false then
    StepResult.exit [Event.consoleFailMsg]
  else if inp.landmarks ≠ [] ∧ 9 ≤ inp.landmarks.length then
    if inp.sbcFails then
      StepResult.crash [Event.consoleDiag (frameBrightness inp).1 (frameBrightness inp).2,
        Event.setBrightness (frameBrightness inp).1]
    else if inp.quitKey then
      StepResult.exit [Event.consoleDiag (frameBrightness inp).1 (frameBrightness inp).2,
        Event.setBrightness (frameBrightness inp).1, Event.showFrame]
    else
      StepResult.cont [Event.consoleDiag (frameBrightness inp).1 (frameBrightness inp).2,
        Event.setBrightness (frameBrightness inp).1, Event.showFrame]
  else if inp.quitKey then
    StepResult.exit [Event.showFrame]
  else
    StepResult.cont [Event.showFrame]

/-- The whole of `main` (lines 96–134) over a list of per-frame inputs:
the loop runs until the input list is exhausted (`cap.isOpened()` turning
false), a `break` is taken, or an exception propagates; `cap.release()`
and `cv2.destroyAllWindows()` (lines 133–134) run only when the loop is
left normally — an uncaught exception skips them. -/
noncomputable def runMain : List FrameInput → List Event
  | [] => [Event.releaseCamera, Event.destroyWindows]
  | inp :: rest =>
    match loopStep inp with
    | StepResult.cont evs => evs ++ runMain rest
    | StepResult.exit evs => evs ++ [Event.releaseCamera, Event.destroyWindows]
    | StepResult.crash evs => evs

lemma processedHand_length (h w : ℕ) (hand : Hand) :
    (hand.enum.map (fun p => landmarkEntry h w p.1 p.2)).length = hand.length := by
  rw [List.length_map, List.enum_length]

lemma processedHand_getElem (h w : ℕ) (hand : Hand) (i : ℕ) :
    (hand.enum.map (fun p => landmarkEntry h w p.1 p.2))[i]? =
      (hand[i]?).map (landmarkEntry h w i) := by
  rw [List.getElem?_map, List.getElem?_enum]
  cases hand[i]? <;> rfl

lemma get_hand_landmarks_length (h w : ℕ) :
    ∀ hands : List Hand, (∀ hand ∈ hands, hand.length = 21) →
      (get_hand_landmarks h w hands).length = 21 * hands.length
  | [], _ => by simp [get_hand_landmarks]
  | hand :: rest, hlen => by
    have h21 : hand.length = 21 := hlen hand (List.mem_cons_self hand rest)
    have ihr := get_hand_landmarks_length h w rest
      (fun hd hm => hlen hd (List.mem_cons_of_mem hand hm))
    simp only [get_hand_landmarks, List.length_append, processedHand_length, h21, ihr,
      List.length_cons]
    ring

lemma get_hand_landmarks_id (h w : ℕ) :
    ∀ hands : List Hand, (∀ hand ∈ hands, hand.length = 21) →
      ∀ i entry, (get_hand_landmarks h w hands)[i]? = some entry → entry.1 = i % 21
  | [], _, i, entry => by simp [get_hand_landmarks]
  | hand :: rest, hlen, i, entry => by
    have h21 : hand.length = 21 := hlen hand (List.mem_cons_self hand rest)
    intro hget
    rw [show get_hand_landmarks h w (hand :: rest) =
      hand.enum.map (fun p => landmarkEntry h w p.1 p.2) ++ get_hand_landmarks h w rest
      from rfl] at hget
    by_cases hi : i < 21
    · rw [List.getElem?_append_left (by rw [processedHand_length, h21]; exact hi),
        processedHand_getElem] at hget
      obtain ⟨lm, hlm, hentry⟩ := Option.map_eq_some'.mp hget
      rw [← hentry]
      show i = i % 21
      omega
    · rw [List.getElem?_append_right (by rw [processedHand_length, h21]; omega),
        processedHand_length, h21] at hget
      have := get_hand_landmarks_id h w rest
        (fun hd hm => hlen hd (List.mem_cons_of_mem hand hm)) (i - 21) entry hget
      omega

lemma get_hand_landmarks_first_hand (h w : ℕ) (hand0 : Hand) (rest : List Hand)
    (h21 : hand0.length = 21) (i : ℕ) (hi : i < 21) :
    (get_hand_landmarks h w (hand0 :: rest))[i]? = (hand0[i]?).map (landmarkEntry h w i) := by
  rw [show get_hand_landmarks h w (hand0 :: rest) =
    hand0.enum.map (fun p => landmarkEntry h w p.1 p.2) ++ get_hand_landmarks h w rest
    from rfl]
  rw [List.getElem?_append_left (by rw [processedHand_length, h21]; exact hi)]
  exact processedHand_getElem h w hand0 i

/-- C10: `get_hand_landmarks` returns the landmarks of all detected hands
concatenated in detection order, the id restarting at 0 for every hand
(so entry i carries id i mod 21 when every hand has 21 points); with k
detected hands the list has 21 * k entries, and when at least one hand is
detected, positions 4 and 8 are the first detected hand's thumb tip and
index-finger tip converted to pixel coordinates. -/
theorem landmark_list_structure (h w : ℕ) (hands : List Hand)
    (hlen : ∀ hand ∈ hands, hand.length = 21) :
    (get_hand_landmarks h w hands).length = 21 * hands.length
    ∧ (∀ i entry, (get_hand_landmarks h w hands)[i]? = some entry → entry.1 = i % 21)
    ∧ (∀ hand0 rest, hands = hand0 :: rest →
        (get_hand_landmarks h w hands)[4]? = (hand0[4]?).map (landmarkEntry h w 4)
        ∧ (get_hand_landmarks h w hands)[8]? = (hand0[8]?).map (landmarkEntry h w 8)) := by
  refine ⟨get_hand_landmarks_length h w hands hlen, get_hand_landmarks_id h w hands hlen, ?_⟩
  rintro hand0 rest rfl
  have h21 : hand0.length = 21 := hlen hand0 (List.mem_cons_self hand0 rest)
  exact ⟨get_hand_landmarks_first_hand h w hand0 rest h21 4 (by omega),
    get_hand_landmarks_first_hand h w hand0 rest h21 8 (by omega)⟩

theorem landmark_list_structure_witness :
    (get_hand_landmarks 480 640 [List.replicate 21 ((1 : ℚ) / 2, (1 : ℚ) / 2)]).length = 21 * 1
    ∧ (get_hand_landmarks 480 640 [List.replicate 21 ((1 : ℚ) / 2, (1 : ℚ) / 2)])[4]? =
        ((List.replicate 21 ((1 : ℚ) / 2, (1 : ℚ) / 2))[4]?).map (landmarkEntry 480 640 4) := by
  have hlen : ∀ hand ∈ [List.replicate 21 ((1 : ℚ) / 2, (1 : ℚ) / 2)], hand.length = 21 := by
    intro hand hm
    rw [List.mem_singleton] at hm
    rw [hm, List.length_replicate]
  have hall := landmark_list_structure 480 640 [List.replicate 21 ((1 : ℚ) / 2, (1 : ℚ) / 2)] hlen
  exact ⟨hall.1, (hall.2.2 _ _ rfl).1⟩

/-- C2: in any iteration whose landmark list has fewer than 9 entries
(the empty list included), the brightness-setting facility is not called,
no diagnostic console line is printed, and (when the quit key is not
pressed) the loop continues to the next frame showing only the frame;
hence a brightness call can occur only with at least 9 landmarks. -/
theorem small_landmark_list_skips (inp : FrameInput) (hs : inp.success = true)
    (hlt : inp.landmarks.length < 9) :
    (∀ b, Event.setBrightness b ∉ (loopStep inp).events)
    ∧ (∀ b d, Event.consoleDiag b d ∉ (loopStep inp).events)
    ∧ (inp.quitKey = false → loopStep inp = StepResult.cont [Event.showFrame]) := by
  have hstep : loopStep inp =
      if inp.quitKey then StepResult.exit [Event.showFrame]
      else StepResult.cont [Event.showFrame] := by
    unfold loopStep
    rw [if_neg (by simp [hs]), if_neg (by rintro ⟨-, h9⟩; omega)]
  refine ⟨?_, ?_, ?_⟩
  · intro b
    rw [hstep]
    by_cases hq : inp.quitKey = true
    · simp [hq, StepResult.events]
    · simp only [Bool.not_eq_true] at hq
      simp [hq, StepResult.events]
  · intro b d
    rw [hstep]
    by_cases hq : inp.quitKey = true
    · simp [hq, StepResult.events]
    · simp only [Bool.not_eq_true] at hq
      simp [hq, StepResult.events]
  · intro hq
    rw [hstep, hq]
    simp

theorem small_landmark_list_skips_witness :
    loopStep ⟨true, [], false, false⟩ = StepResult.cont [Event.showFrame] :=
  (small_landmark_list_skips ⟨true, [], false, false⟩ rfl (by decide)).2.2 rfl

/-- C8: when frame acquisition fails on an iteration, the loop prints the
failure message, terminates immediately without retrying, and releases
the camera and the windows; when the failure is on the first iteration the
whole execution makes zero brightness-setting calls. -/
theorem acquisition_failure_terminates (inp : FrameInput) (rest : List FrameInput)
    (hf : inp.success = false) :
    runMain (inp :: rest) = [Event.consoleFailMsg, Event.releaseCamera, Event.destroyWindows]
    ∧ ∀ b, Event.setBrightness b ∉ runMain (inp :: rest) := by
  have hstep : loopStep inp = StepResult.exit [Event.consoleFailMsg] := by
    unfold loopStep
    rw [if_pos hf]
  have hrun : runMain (inp :: rest) =
      [Event.consoleFailMsg, Event.releaseCamera, Event.destroyWindows] := by
    show (match loopStep inp with
      | StepResult.cont evs => evs ++ runMain rest
      | StepResult.exit evs => evs ++ [Event.releaseCamera, Event.destroyWindows]
      | StepResult.crash evs => evs) =
      [Event.consoleFailMsg, Event.releaseCamera, Event.destroyWindows]
    rw [hstep]
    rfl
  refine ⟨hrun, ?_⟩
  intro b
  rw [hrun]
  simp

theorem acquisition_failure_terminates_witness :
    runMain [⟨false, [], false, false⟩] =
      [Event.consoleFailMsg, Event.releaseCamera, Event.destroyWindows] :=
  (acquisition_failure_terminates ⟨false, [], false, false⟩ [] rfl).1

/-- C9 fails on the code: when the brightness-setting call raises an
exception on a frame with at least 9 landmarks, the exception propagates
out of `main` before lines 133–134 run, so neither the camera handle nor
the windows are released — the release is not performed on every exit
path, contrary to the claim. -/
theorem crash_skips_release :
    Event.releaseCamera ∉ runMain [⟨true, List.replicate 9 (0, 0, 0), true, false⟩]
    ∧ Event.destroyWindows ∉ runMain [⟨true, List.replicate 9 (0, 0, 0), true, false⟩] := by
  have hstep : loopStep ⟨true, List.replicate 9 (0, 0, 0), true, false⟩ =
      StepResult.crash
        [Event.consoleDiag (frameBrightness ⟨true, List.replicate 9 (0, 0, 0), true, false⟩).1
          (frameBrightness ⟨true, List.replicate 9 (0, 0, 0), true, false⟩).2,
         Event.setBrightness (frameBrightness ⟨true, List.replicate 9 (0, 0, 0), true, false⟩).1] := by
    unfold loopStep
    rw [if_neg (by simp), if_pos ⟨by simp, by simp⟩, if_pos rfl]
  have hrun : runMain [⟨true, List.replicate 9 (0, 0, 0), true, false⟩] =
      [Event.consoleDiag (frameBrightness ⟨true, List.replicate 9 (0, 0, 0), true, false⟩).1
        (frameBrightness ⟨true, List.replicate 9 (0, 0, 0), true, false⟩).2,
       Event.setBrightness (frameBrightness ⟨true, List.replicate 9 (0, 0, 0), true, false⟩).1] := by
    show (match loopStep ⟨true, List.replicate 9 (0, 0, 0), true, false⟩ with
      | StepResult.cont evs => evs ++ runMain []
      | StepResult.exit evs => evs ++ [Event.releaseCamera, Event.destroyWindows]
      | StepResult.crash evs => evs) =
      [Event.consoleDiag (frameBrightness ⟨true, List.replicate 9 (0, 0, 0), true, false⟩).1
        (frameBrightness ⟨true, List.replicate 9 (0, 0, 0), true, false⟩).2,
       Event.setBrightness (frameBrightness ⟨true, List.replicate 9 (0, 0, 0), true, false⟩).1]
    rw [hstep]
  constructor <;> rw [hrun] <;> simp

end BrightnessControl
